import Mathlib

/-!
Verification model of the gobus transit service core (Go sources under
internal/handler, internal/gtfs, internal/storage).

Conventions of the shallow embedding:
* GTFS clock times ("HH:MM:SS", hour may exceed 24) are modelled as the
  triple of numbers that Go's `fmt.Sscanf(gtfsTime, "%d:%d:%d", ...)`
  extracts; `GTime.render` reproduces the zero-padded textual form, so the
  byte-wise string comparisons performed by the Go code and by SQLite on
  TEXT columns are modelled by `strLt` on the rendered strings.
* Machine integers are Nat / Int; Go's `int(d.Minutes())` truncates toward
  zero, which is `Int.tdiv _ 60` on a whole number of seconds.
* Wall-clock instants are integers: `Clock.epoch` is the absolute time in
  seconds (Go `time.Time` / Unix seconds) and `Clock.sod` the seconds
  elapsed since local midnight of the current day, i.e. the quantity
  `now.Sub(time.Date(y, m, d, 0, 0, 0, 0, loc))` that the Go helpers
  recompute from `now`.
* Fallible collaborators (SQL, HTTP, the realtime API) are parameters:
  a query becomes a pure function of the table contents, an HTTP exchange
  becomes a value of an outcome type supplied by the environment.
-/

/-- GTFS clock time as parsed by `fmt.Sscanf(gtfsTime, "%d:%d:%d", &h, &m, &s)`
in the Go code: hours (which may exceed 24 for next-service-day trips),
minutes and seconds. -/
structure GTime where
  h : Nat
  m : Nat
  s : Nat
deriving DecidableEq, Repr

/-- Seconds since (service-day) midnight represented by a GTFS time. -/
def GTime.totalSeconds (t : GTime) : Nat :=
  t.h * 3600 + t.m * 60 + t.s

/-- Decimal digit character, as produced by Go's `%02d` formatting. -/
def dchar : Nat → Char
  | 0 => '0'
  | 1 => '1'
  | 2 => '2'
  | 3 => '3'
  | 4 => '4'
  | 5 => '5'
  | 6 => '6'
  | 7 => '7'
  | 8 => '8'
  | 9 => '9'
  | _ => '?'

/-- Two-digit zero-padded rendering of a number below 100 (Go `%02d`). -/
def pad2 (n : Nat) : List Char :=
  [dchar (n / 10), dchar (n % 10)]

/-- The zero-padded "HH:MM:SS" text of a GTFS time, the raw form stored in
the feed and in the `stop_times.departure_time` TEXT column. -/
def GTime.render (t : GTime) : String :=
  String.mk (pad2 t.h ++ ':' :: (pad2 t.m ++ ':' :: pad2 t.s))

/-- Byte-wise lexicographic comparison of character lists.  For the ASCII
strings handled here this is exactly Go's `<` on `string` and SQLite's
default ordering on TEXT values. -/
def charListLt : List Char → List Char → Bool
  | _, [] => false
  | [], _ :: _ => true
  | a :: as, b :: bs =>
    if a < b then true else if b < a then false else charListLt as bs

/-- Raw string comparison used by the Go code (`t < currentTime`) and by
SQLite (`departure_time >= ?`). -/
def strLt (a b : String) : Bool :=
  charListLt a.data b.data

/-- The comparison `strLt` coincides with the lexicographic order on the
underlying character lists (Lean core's `List.lt`). -/
theorem charListLt_iff_lt (l1 l2 : List Char) :
    charListLt l1 l2 = true ↔ List.lt l1 l2 := by
  induction l1 generalizing l2 with
  | nil =>
    cases l2 with
    | nil =>
      simp only [charListLt, Bool.false_eq_true, false_iff]
      intro h
      cases h
    | cons b bs =>
      simp only [charListLt, true_iff]
      exact List.lt.nil b bs
  | cons a as ih =>
    cases l2 with
    | nil =>
      simp only [charListLt, Bool.false_eq_true, false_iff]
      intro h
      cases h
    | cons b bs =>
      simp only [charListLt]
      by_cases hab : a < b
      · simp only [hab, if_true, true_iff]
        exact List.lt.head as bs hab
      · by_cases hba : b < a
        · simp only [hab, hba, if_true, if_false, Bool.false_eq_true, false_iff]
          intro h
          cases h with
          | head _ _ h => exact hab h
          | tail h1 h2 h3 => exact h2 hba
        · simp only [hab, hba, if_false]
          constructor
          · intro h
            exact List.lt.tail hab hba ((ih bs).mp h)
          · intro h
            cases h with
            | head _ _ h => exact absurd h hab
            | tail h1 h2 h3 => exact (ih bs).mpr h3

/-- Unfolding step for `charListLt` on two nonempty lists, phrased with
equality in the middle case (characters are linearly ordered). -/
theorem charListLt_cons (a b : Char) (as bs : List Char) :
    charListLt (a :: as) (b :: bs) = true ↔
      a < b ∨ (a = b ∧ charListLt as bs = true) := by
  simp only [charListLt]
  by_cases hab : a < b
  · simp [hab]
  · by_cases hba : b < a
    · have hne : a ≠ b := by
        intro h
        subst h
        exact absurd hba (lt_irrefl a)
      simp [hab, hba, hne]
    · have heq : a = b := le_antisymm (not_lt.mp hba) (not_lt.mp hab)
      simp [hab, hba, heq]

/-- Ordering of digit characters mirrors the ordering of the digits. -/
theorem dchar_lt_iff (i j : Nat) (hi : i < 10) (hj : j < 10) :
    dchar i < dchar j ↔ i < j := by
  interval_cases i <;> interval_cases j <;> decide

/-- Digit characters are injective on digits. -/
theorem dchar_eq_iff (i j : Nat) (hi : i < 10) (hj : j < 10) :
    dchar i = dchar j ↔ i = j := by
  interval_cases i <;> interval_cases j <;> decide

/-- Go's rendering of a GTFS time on the 12-hour clock
(`formatGTFSTime` in the handler package): hours wrap modulo 24, the
AM/PM period is taken from the wrapped hour, 0 displays as 12 and
hours above 12 have 12 subtracted.  `%d` on the display hour (always
1..12) and `%02d` on the minutes. -/
def formatGTFSTime (t : GTime) : String :=
  let displayHour := t.h % 24
  let period := if displayHour ≥ 12 then "PM" else "AM"
  let displayHour :=
    if displayHour = 0 then 12
    else if displayHour > 12 then displayHour - 12
    else displayHour
  (if displayHour < 10 then String.mk [dchar displayHour]
   else String.mk (pad2 displayHour)) ++
    ":" ++ String.mk (pad2 t.m) ++ " " ++ period

/-- Go's `minutesUntil(gtfsTime, now)`: seconds from `now` (given as
seconds since local midnight) to the GTFS time on the current day;
negative differences clamp to 0, otherwise whole minutes (truncated). -/
def minutesUntil (t : GTime) (nowSod : Int) : Int :=
  let diff : Int := (t.totalSeconds : Int) - nowSod
  if diff < 0 then 0 else Int.tdiv diff 60

/-- C8, general half: on valid zero-padded GTFS times, byte-wise string
order implies wall-clock-with-rollover order (total seconds). -/
theorem render_lt_totalSeconds_le (t1 t2 : GTime)
    (h1m : t1.m < 60) (h1s : t1.s < 60) (h1h : t1.h < 100)
    (h2m : t2.m < 60) (h2s : t2.s < 60) (h2h : t2.h < 100)
    (hlt : strLt t1.render t2.render = true) :
    t1.totalSeconds ≤ t2.totalSeconds := by
  have b1 : t1.h / 10 < 10 := by omega
  have b2 : t2.h / 10 < 10 := by omega
  have b3 : t1.h % 10 < 10 := by omega
  have b4 : t2.h % 10 < 10 := by omega
  have b5 : t1.m / 10 < 10 := by omega
  have b6 : t2.m / 10 < 10 := by omega
  have b7 : t1.m % 10 < 10 := by omega
  have b8 : t2.m % 10 < 10 := by omega
  have b9 : t1.s / 10 < 10 := by omega
  have b10 : t2.s / 10 < 10 := by omega
  have b11 : t1.s % 10 < 10 := by omega
  have b12 : t2.s % 10 < 10 := by omega
  have hform : strLt t1.render t2.render =
      charListLt
        [dchar (t1.h / 10), dchar (t1.h % 10), ':',
         dchar (t1.m / 10), dchar (t1.m % 10), ':',
         dchar (t1.s / 10), dchar (t1.s % 10)]
        [dchar (t2.h / 10), dchar (t2.h % 10), ':',
         dchar (t2.m / 10), dchar (t2.m % 10), ':',
         dchar (t2.s / 10), dchar (t2.s % 10)] := rfl
  rw [hform] at hlt
  simp only [GTime.totalSeconds]
  rw [charListLt_cons] at hlt
  rcases hlt with hlt | ⟨he1, hlt⟩
  · have := (dchar_lt_iff _ _ b1 b2).mp hlt
    omega
  · have e1 := (dchar_eq_iff _ _ b1 b2).mp he1
    rw [charListLt_cons] at hlt
    rcases hlt with hlt | ⟨he2, hlt⟩
    · have := (dchar_lt_iff _ _ b3 b4).mp hlt
      omega
    · have e2 := (dchar_eq_iff _ _ b3 b4).mp he2
      rw [charListLt_cons] at hlt
      rcases hlt with hlt | ⟨_, hlt⟩
      · exact absurd hlt (lt_irrefl ':')
      · rw [charListLt_cons] at hlt
        rcases hlt with hlt | ⟨he3, hlt⟩
        · have := (dchar_lt_iff _ _ b5 b6).mp hlt
          omega
        · have e3 := (dchar_eq_iff _ _ b5 b6).mp he3
          rw [charListLt_cons] at hlt
          rcases hlt with hlt | ⟨he4, hlt⟩
          · have := (dchar_lt_iff _ _ b7 b8).mp hlt
            omega
          · have e4 := (dchar_eq_iff _ _ b7 b8).mp he4
            rw [charListLt_cons] at hlt
            rcases hlt with hlt | ⟨_, hlt⟩
            · exact absurd hlt (lt_irrefl ':')
            · rw [charListLt_cons] at hlt
              rcases hlt with hlt | ⟨he5, hlt⟩
              · have := (dchar_lt_iff _ _ b9 b10).mp hlt
                omega
              · have e5 := (dchar_eq_iff _ _ b9 b10).mp he5
                rw [charListLt_cons] at hlt
                rcases hlt with hlt | ⟨he6, hlt⟩
                · have := (dchar_lt_iff _ _ b11 b12).mp hlt
                  omega
                · simp [charListLt] at hlt

/-- C8: rendering a GTFS stop time on the 12-hour clock wraps correctly
past hour 24 (24:00 is 12:00 AM, 25:30 is 1:30 AM, 26:15 is 2:15 AM),
the example strings 23:00:00 < 24:30:00 < 25:00:00 compare in that order
byte-wise, and in general on valid zero-padded times the raw-string order
implies wall-clock-with-rollover order. -/
theorem gtfsTime_render_and_order :
    (formatGTFSTime ⟨24, 0, 0⟩ = "12:00 AM" ∧
     formatGTFSTime ⟨25, 30, 0⟩ = "1:30 AM" ∧
     formatGTFSTime ⟨26, 15, 0⟩ = "2:15 AM") ∧
    (strLt (GTime.render ⟨23, 0, 0⟩) (GTime.render ⟨24, 30, 0⟩) = true ∧
     strLt (GTime.render ⟨24, 30, 0⟩) (GTime.render ⟨25, 0, 0⟩) = true ∧
     (GTime.totalSeconds ⟨23, 0, 0⟩ ≤ GTime.totalSeconds ⟨24, 30, 0⟩ ∧
      GTime.totalSeconds ⟨24, 30, 0⟩ ≤ GTime.totalSeconds ⟨25, 0, 0⟩)) ∧
    (∀ t1 t2 : GTime, t1.m < 60 → t1.s < 60 → t1.h < 100 →
      t2.m < 60 → t2.s < 60 → t2.h < 100 →
      strLt t1.render t2.render = true →
      t1.totalSeconds ≤ t2.totalSeconds) := by
  refine ⟨⟨by decide, by decide, by decide⟩, ⟨by decide, by decide, by decide, by decide⟩, ?_⟩
  intro t1 t2 h1 h2 h3 h4 h5 h6 h7
  exact render_lt_totalSeconds_le t1 t2 h1 h2 h3 h4 h5 h6 h7

/-- Witness for C8: the general ordering statement applied to the concrete
pair 23:00:00 and 24:30:00. -/
theorem gtfsTime_render_and_order_witness :
    GTime.totalSeconds ⟨23, 0, 0⟩ ≤ GTime.totalSeconds ⟨24, 30, 0⟩ :=
  gtfsTime_render_and_order.2.2 ⟨23, 0, 0⟩ ⟨24, 30, 0⟩
    (by decide) (by decide) (by decide) (by decide) (by decide) (by decide) (by decide)

/-! ### Headway ("Every N min") detection — handler/interval.go -/

/-- Absolute difference of two naturals, mirroring Go's
`abs(intervals[i] - intervals[curStart])` on (positive) interval values. -/
def absDiff (a b : Nat) : Nat :=
  (a - b) + (b - a)

/-- Gaps in whole minutes between consecutive departure times (seconds),
keeping only positive gaps — Go computes
`diff := int(futureTimes[i].Sub(futureTimes[i-1]).Minutes())` and appends
it only `if diff > 0`. -/
def consecIntervals : List Nat → List Nat
  | a :: b :: rest =>
    let m := Int.tdiv ((b : Int) - (a : Int)) 60
    if 0 < m then m.toNat :: consecIntervals (b :: rest)
    else consecIntervals (b :: rest)
  | _ => []

/-- Longest-consistent-run scan over the interval list, carrying the anchor
value `intervals[curStart]` so the recursion is structural.  Mirrors the
Go loop body: within ±2 of the anchor extends the current run, otherwise
the current run is compared against the best and a new run starts. -/
def runScanAux : List Nat → Nat → Nat → Nat → Nat → Nat → Nat → Nat × Nat
  | [], _, _, cS, cL, bS, bL => if cL > bL then (cS, cL) else (bS, bL)
  | x :: rest, anchor, i, cS, cL, bS, bL =>
    if absDiff x anchor ≤ 2 then runScanAux rest anchor (i + 1) cS (cL + 1) bS bL
    else if cL > bL then runScanAux rest x (i + 1) i 1 cS cL
    else runScanAux rest x (i + 1) i 1 bS bL

/-- The (bestStart, bestLen) pair computed by the Go scan, including the
final comparison after the loop. -/
def runScan : List Nat → Nat × Nat
  | [] => (0, 1)
  | a :: rest => runScanAux rest a 1 0 1 0 1

/-- Rendering of a duration-from-midnight through Go's
`Format("3:04 PM")` (hour unpadded, minute padded, wrapping past 24h). -/
def format12 (sod : Nat) : String :=
  formatGTFSTime ⟨sod / 3600, sod % 3600 / 60, sod % 60⟩

/-- Go's `detectInterval` (handler/interval.go) given the all-day departure
list for one stop/route/direction (`AllDeparturesForStopRoute` result) and
"now": filter to departures at or after now (raw string comparison),
compute positive whole-minute gaps, find the longest run of gaps within
±2 min of the run's first gap, require at least 3 such gaps, average them
(integer division), round to the nearest 5 minutes (falling back to the
unrounded average if rounding gives 0), and report
"Every N min until T" where T is the departure at index
bestStart+bestLen of the future list (clamped to the last index). -/
def detectInterval (times : List GTime) (now : GTime) : String :=
  if times.length < 3 then "" else
  let futureTimes := (times.filter (fun t => !(strLt t.render now.render))).map GTime.totalSeconds
  if futureTimes.length < 3 then "" else
  let intervals := consecIntervals futureTimes
  if intervals.length < 2 then "" else
  let best := runScan intervals
  if best.2 < 3 then "" else
  let sum := ((intervals.drop best.1).take best.2).sum
  let avgInterval := sum / best.2
  let rounded0 := ((avgInterval + 2) / 5) * 5
  let rounded := if rounded0 = 0 then avgInterval else rounded0
  let endIdx := best.1 + best.2
  let endIdx := if endIdx ≥ futureTimes.length then futureTimes.length - 1 else endIdx
  let endTime := futureTimes.getD endIdx 0
  "Every " ++ toString rounded ++ " min until " ++ format12 endTime

/-- Helper for C4: scanning a block of `k` gaps equal to the anchor followed
by one inconsistent gap extends the current run over the whole block and
then closes it at the inconsistent gap. -/
theorem runScanAux_rep (d b : Nat) (hb : 2 < absDiff b d) :
    ∀ (k i cS cL bS bL : Nat), 1 ≤ bL →
      runScanAux (List.replicate k d ++ [b]) d i cS cL bS bL =
        if cL + k > bL then (cS, cL + k) else (bS, bL) := by
  intro k
  induction k with
  | zero =>
    intro i cS cL bS bL hbL
    have hgt : ¬ absDiff b d ≤ 2 := by omega
    simp only [List.replicate, List.nil_append, runScanAux, hgt, if_false]
    by_cases hc : cL > bL
    · have h1 : ¬ 1 > cL := by omega
      simp [hc, h1]
    · have h1 : ¬ 1 > bL := by omega
      simp [hc, h1]
  | succ k ih =>
    intro i cS cL bS bL hbL
    have h0 : absDiff d d ≤ 2 := by simp [absDiff]
    simp only [List.replicate_succ, List.cons_append, runScanAux, h0, if_true, List.append_eq]
    rw [ih (i + 1) cS (cL + 1) bS bL hbL]
    have harith : cL + 1 + k = cL + (k + 1) := by omega
    rw [harith]

/-- Helper for C4: on a gap list made of `n` consistent gaps (equal to `d`)
followed by one inconsistent gap, the Go scan selects the run of the first
`n` gaps. -/
theorem runScan_rep (n d b : Nat) (hn : 3 ≤ n) (hb : 2 < absDiff b d) :
    runScan (List.replicate n d ++ [b]) = (0, n) := by
  obtain ⟨k, rfl⟩ : ∃ k, n = k + 1 := ⟨n - 1, by omega⟩
  simp only [List.replicate_succ, List.cons_append, runScan]
  rw [runScanAux_rep d b hb k 1 0 1 0 1 (by omega)]
  have hgt : 1 + k > 1 := by omega
  simp only [hgt, if_true]
  have : 1 + k = k + 1 := by omega
  rw [this]

/-- C4 counterexample: for future departures at :00, :20, :40, :60, :95
(taking 8:00, 8:20, 8:40, 9:00, 9:35 with "now" 7:30), the detected
pattern does NOT end at the :40 departure as the claim states — the code
reports the :60 departure (9:00 AM) as the end of the pattern. -/
theorem detectInterval_claim_counterexample :
    detectInterval [⟨8, 0, 0⟩, ⟨8, 20, 0⟩, ⟨8, 40, 0⟩, ⟨9, 0, 0⟩, ⟨9, 35, 0⟩] ⟨7, 30, 0⟩ ≠
      "Every 20 min until 8:40 AM" := by
  decide

/-- C4 amended: on departures at :00, :20, :40, :60, :95 the code detects
"every 20 min" ending at the :60 departure (the departure that closes the
last consistent gap), excluding the :95 entry; and in general, on a gap
list of n ≥ 3 consistent gaps followed by an inconsistent one, the
longest-run scan selects exactly those n gaps (so the reported
end-of-pattern departure is the one at index n of the future list, which
closes the run, and the displayed interval is the run's integer average
rounded to the nearest 5 minutes). -/
theorem detectInterval_pattern :
    detectInterval [⟨8, 0, 0⟩, ⟨8, 20, 0⟩, ⟨8, 40, 0⟩, ⟨9, 0, 0⟩, ⟨9, 35, 0⟩] ⟨7, 30, 0⟩ =
      "Every 20 min until 9:00 AM" ∧
    (∀ n d b : Nat, 3 ≤ n → 2 < absDiff b d →
      runScan (List.replicate n d ++ [b]) = (0, n)) := by
  constructor
  · decide
  · intro n d b hn hb
    exact runScan_rep n d b hn hb

/-- Witness for C4: the general run-selection statement applied to three
20-minute gaps followed by a 35-minute gap. -/
theorem detectInterval_pattern_witness :
    runScan (List.replicate 3 20 ++ [35]) = (0, 3) :=
  detectInterval_pattern.2 3 20 35 (by decide) (by decide)

/-! ### Schedule/realtime departure merge — handler/departures.go -/

/-- Wall-clock "now": absolute time in seconds (Unix epoch, Go
`time.Time`) together with the seconds elapsed since local midnight of
the current day (the Go helpers rebuild midnight from `now` and the
location; here it is carried alongside). -/
structure Clock where
  epoch : Int
  sod : Int
deriving DecidableEq, Repr

/-- A scheduled departure row (storage.DepartureRow) as returned by
`DeparturesForStop`. -/
structure SchedRow where
  tripID : String
  routeID : String
  routeShort : String
  routeLong : String
  routeColor : String
  routeType : Nat
  tripHeadsign : String
  directionID : Int
  departureTime : GTime
  stopSequence : Nat
deriving DecidableEq, Repr

/-- A realtime prediction (nextrip.Departure), restricted to the fields the
merge reads. -/
structure RTDep where
  actual : Bool
  tripID : String
  departureTime : Int
  description : String
  routeID : String
  routeShortName : String
  directionID : Int
  directionText : String
deriving DecidableEq, Repr

/-- A merged departure row (templates.DepartureInfo), restricted to the
fields the merge writes. -/
structure DepartureInfo where
  routeID : String
  routeShort : String
  routeColor : String
  headsign : String
  directionID : Int
  directionText : String
  scheduled : String
  realtime : String
  minutesAway : Int
  isRealtime : Bool
  isLate : Bool
deriving DecidableEq, Repr

/-- Go's `expandDirectionText`: NexTrip direction abbreviations to words. -/
def expandDirectionText (abbr : String) : String :=
  if abbr = "NB" then "Northbound"
  else if abbr = "SB" then "Southbound"
  else if abbr = "EB" then "Eastbound"
  else if abbr = "WB" then "Westbound"
  else abbr

/-- Rendering of an absolute instant through Go's `Format("3:04 PM")` in
the current location: seconds-of-day relative to the local midnight
carried by `now`. -/
def format12Epoch (rtsec : Int) (now : Clock) : String :=
  format12 (((now.sod + (rtsec - now.epoch)) % 86400).toNat)

/-- The `rtByTrip` map of the merge: realtime departures keyed by trip id,
a later entry overwriting an earlier one. -/
def rtByTrip (deps : List RTDep) (trip : String) : Option RTDep :=
  deps.reverse.find? (fun d => d.tripID = trip)

/-- The `dirTextByRouteDir` fallback map of the merge: expanded direction
text keyed by route id and direction id, built from realtime entries with
nonempty direction text, a later entry overwriting an earlier one; a
missing key yields the empty string (Go map zero value). -/
def dirTextByRouteDir (deps : List RTDep) (routeID : String) (directionID : Int) : String :=
  match (deps.filter (fun d => d.directionText ≠ "")).reverse.find?
      (fun d => d.routeID = routeID ∧ d.directionID = directionID) with
  | some d => expandDirectionText d.directionText
  | none => ""

/-- The merge row built from a scheduled departure before any realtime
overlay (steps 4a of `fetchDepartures`): short name falls back to the long
name, display time and minutes-away come from the schedule, direction
text from the route+direction fallback map. -/
def schedBaseRow (sched : SchedRow) (rtDeps : List RTDep) (now : Clock) : DepartureInfo where
  routeID := sched.routeID
  routeShort := if sched.routeShort = "" then sched.routeLong else sched.routeShort
  routeColor := sched.routeColor
  headsign := sched.tripHeadsign
  directionID := sched.directionID
  directionText := dirTextByRouteDir rtDeps sched.routeID sched.directionID
  scheduled := formatGTFSTime sched.departureTime
  realtime := ""
  minutesAway := minutesUntil sched.departureTime now.sod
  isRealtime := false
  isLate := false

/-- The realtime overlay on a scheduled row (`if rt, ok := rtByTrip[...]`
branch of the merge): direction text and short-name fixups always apply;
when the prediction is actual, the display time and minutes-away are
replaced (clamped at 0) and the row is flagged late when the realtime
whole-minute countdown exceeds the scheduled one by more than 2. -/
def overlayRealtime (sched : SchedRow) (base : DepartureInfo) (rt : RTDep) (now : Clock) :
    DepartureInfo :=
  let d1 := { base with
    isRealtime := rt.actual
    directionText := expandDirectionText rt.directionText
    routeShort :=
      if sched.routeShort = "" ∧ rt.routeShortName ≠ "" then rt.routeShortName
      else base.routeShort }
  if rt.actual then
    let ma0 := Int.tdiv (rt.departureTime - now.epoch) 60
    let ma := if ma0 < 0 then 0 else ma0
    let schedMins := minutesUntil sched.departureTime now.sod
    { d1 with
      realtime := format12Epoch rt.departureTime now
      minutesAway := ma
      isLate := decide (ma > schedMins + 2) }
  else d1

/-- One scheduled row through the merge loop: overlay if the trip id has a
realtime prediction, otherwise the schedule-only row. -/
def mergedSchedRow (sched : SchedRow) (rtDeps : List RTDep) (now : Clock) : DepartureInfo :=
  let base := schedBaseRow sched rtDeps now
  match rtByTrip rtDeps sched.tripID with
  | some rt => overlayRealtime sched base rt now
  | none => base

/-- A realtime-only (extra/unscheduled) departure row as appended in step
5 of the merge. -/
def rtExtraRow (rt : RTDep) (now : Clock) : DepartureInfo where
  routeID := rt.routeID
  routeShort := rt.routeShortName
  routeColor := ""
  headsign := rt.description
  directionID := rt.directionID
  directionText := expandDirectionText rt.directionText
  scheduled := format12Epoch rt.departureTime now
  realtime := format12Epoch rt.departureTime now
  minutesAway := Int.tdiv (rt.departureTime - now.epoch) 60
  isRealtime := rt.actual
  isLate := false

/-- Step 5 of the merge: realtime departures whose trip id was not matched
to a scheduled row ("seen"), dropped when already departed
(negative minutes-away). -/
def rtExtras (schedRows : List SchedRow) (rtDeps : List RTDep) (now : Clock) :
    List DepartureInfo :=
  ((rtDeps.filter (fun rt =>
      ¬ schedRows.any (fun s => s.tripID = rt.tripID ∧ (rtByTrip rtDeps s.tripID).isSome))).map
    (fun rt => rtExtraRow rt now)).filter (fun d => ¬ d.minutesAway < 0)

/-- Insertion step of the final ordering by minutes-away. -/
def insertByMinutes (d : DepartureInfo) : List DepartureInfo → List DepartureInfo
  | [] => [d]
  | x :: xs =>
    if d.minutesAway < x.minutesAway then d :: x :: xs else x :: insertByMinutes d xs

/-- Step 6 of the merge: sort ascending by minutes-away (Go uses
`sort.Slice` with this comparison; insertion sort realises one admissible
ordering). -/
def sortByMinutes (l : List DepartureInfo) : List DepartureInfo :=
  l.foldr insertByMinutes []

/-- Go's `fetchDepartures` after its two collaborator calls: the scheduled
rows are the `DeparturesForStop` result (an SQL error degrades to no
rows, mirrored by passing `[]`), and `rtResp` is the NexTrip response —
`none` models the call failing or timing out, in which case the Go code
logs a warning and continues with no realtime departures.  Merged rows
are sorted by minutes-away and truncated to `limit`. -/
def fetchDepartures (schedRows : List SchedRow) (rtResp : Option (List RTDep))
    (now : Clock) (limit : Nat) : List DepartureInfo :=
  let rtDeps := rtResp.getD []
  let merged := schedRows.map (fun s => mergedSchedRow s rtDeps now)
  (sortByMinutes (merged ++ rtExtras schedRows rtDeps now)).take limit

/-- The schedule-only merge result: what `fetchDepartures` computes from
the scheduled rows alone (no overlay, no extra trips, empty
direction-text map). -/
def scheduleOnlyDepartures (schedRows : List SchedRow) (now : Clock) (limit : Nat) :
    List DepartureInfo :=
  (sortByMinutes (schedRows.map (fun s => schedBaseRow s [] now))).take limit

/-- Membership in an insertion step comes from the inserted element or the
original list. -/
theorem mem_insertByMinutes (d x : DepartureInfo) (l : List DepartureInfo)
    (h : d ∈ insertByMinutes x l) : d = x ∨ d ∈ l := by
  induction l with
  | nil =>
    simp only [insertByMinutes, List.mem_singleton] at h
    exact Or.inl h
  | cons y ys ih =>
    simp only [insertByMinutes] at h
    by_cases hc : x.minutesAway < y.minutesAway
    · rw [if_pos hc] at h
      simpa using h
    · rw [if_neg hc] at h
      rcases List.mem_cons.mp h with h1 | h1
      · exact Or.inr (by simp [h1])
      · rcases ih h1 with h2 | h2
        · exact Or.inl h2
        · exact Or.inr (by simp [h2])

/-- Sorting by minutes-away does not introduce new rows. -/
theorem mem_sortByMinutes (d : DepartureInfo) (l : List DepartureInfo)
    (h : d ∈ sortByMinutes l) : d ∈ l := by
  induction l with
  | nil =>
    simp only [sortByMinutes, List.foldr_nil, List.not_mem_nil] at h
  | cons x xs ih =>
    rcases mem_insertByMinutes d x (sortByMinutes xs) h with h1 | h1
    · simp [h1]
    · exact List.mem_cons_of_mem x (ih h1)

/-- The scheduled-path minutes-away is never negative (the Go helper clamps
negative differences to 0). -/
theorem minutesUntil_nonneg (t : GTime) (sod : Int) : 0 ≤ minutesUntil t sod := by
  unfold minutesUntil
  by_cases h : ((t.totalSeconds : Int) - sod) < 0
  · simp [h]
  · simp only [h, if_false]
    exact Int.tdiv_nonneg (by omega) (by norm_num)

/-- Every merged scheduled row has nonnegative minutes-away, whether or not
a realtime overlay applied. -/
theorem mergedSchedRow_minutesAway_nonneg (s : SchedRow) (rtDeps : List RTDep) (now : Clock) :
    0 ≤ (mergedSchedRow s rtDeps now).minutesAway := by
  unfold mergedSchedRow
  cases hfind : rtByTrip rtDeps s.tripID with
  | none =>
    simp only [schedBaseRow]
    exact minutesUntil_nonneg _ _
  | some rt =>
    unfold overlayRealtime
    by_cases ha : rt.actual
    · simp only [ha, if_true]
      split
      · exact le_refl 0
      · rename_i hnot
        omega
    · simp only [ha, if_false, Bool.false_eq_true]
      simp only [schedBaseRow]
      exact minutesUntil_nonneg _ _

/-- C10: every departure row produced by the merge has nonnegative
minutes-away — the scheduled path clamps at 0, the realtime overlay
clamps at 0, and realtime-only extras with negative minutes are dropped,
and sorting/truncation only removes rows. -/
theorem fetchDepartures_minutesAway_nonneg
    (schedRows : List SchedRow) (rtResp : Option (List RTDep)) (now : Clock) (limit : Nat) :
    ∀ d ∈ fetchDepartures schedRows rtResp now limit, 0 ≤ d.minutesAway := by
  intro d hd
  unfold fetchDepartures at hd
  have hd1 := List.mem_of_mem_take hd
  have hd2 := mem_sortByMinutes _ _ hd1
  rcases List.mem_append.mp hd2 with h | h
  · rcases List.mem_map.mp h with ⟨s, hs, rfl⟩
    exact mergedSchedRow_minutesAway_nonneg s _ now
  · unfold rtExtras at h
    have h2 := (List.mem_filter.mp h).2
    simp only [decide_eq_true_eq] at h2
    omega

/-- Witness for C10: the nonnegativity statement applied to a concrete
merge with one scheduled row, a failed realtime fetch, and the produced
row as the member. -/
theorem fetchDepartures_minutesAway_nonneg_witness :
    0 ≤ (schedBaseRow
      { tripID := "t1", routeID := "r1", routeShort := "10", routeLong := "",
        routeColor := "", routeType := 3, tripHeadsign := "Downtown",
        directionID := 0, departureTime := ⟨8, 30, 0⟩, stopSequence := 1 }
      [] ⟨30000, 30000⟩).minutesAway :=
  fetchDepartures_minutesAway_nonneg
    [{ tripID := "t1", routeID := "r1", routeShort := "10", routeLong := "",
       routeColor := "", routeType := 3, tripHeadsign := "Downtown",
       directionID := 0, departureTime := ⟨8, 30, 0⟩, stopSequence := 1 }]
    none ⟨30000, 30000⟩ 5
    (schedBaseRow
      { tripID := "t1", routeID := "r1", routeShort := "10", routeLong := "",
        routeColor := "", routeType := 3, tripHeadsign := "Downtown",
        directionID := 0, departureTime := ⟨8, 30, 0⟩, stopSequence := 1 }
      [] ⟨30000, 30000⟩)
    (by decide)

/-- C6: when the realtime prediction fetch fails (error or timeout,
modelled as `none`), the merge still returns exactly the schedule-only
results — the failure is logged, never propagated ( `fetchDepartures`
returns a plain list, there is no error path), every returned row carries
no realtime overlay and no late flag. -/
theorem fetchDepartures_schedule_only (schedRows : List SchedRow) (now : Clock) (limit : Nat) :
    fetchDepartures schedRows none now limit = scheduleOnlyDepartures schedRows now limit ∧
    ∀ d ∈ fetchDepartures schedRows none now limit,
      d.isRealtime = false ∧ d.realtime = "" ∧ d.isLate = false := by
  have hmain : fetchDepartures schedRows none now limit =
      scheduleOnlyDepartures schedRows now limit := by
    unfold fetchDepartures scheduleOnlyDepartures
    have hex : rtExtras schedRows [] now = [] := rfl
    simp only [Option.getD_none, hex, List.append_nil]
    rfl
  refine ⟨hmain, ?_⟩
  intro d hd
  rw [hmain] at hd
  unfold scheduleOnlyDepartures at hd
  have hd1 := List.mem_of_mem_take hd
  have hd2 := mem_sortByMinutes _ _ hd1
  rcases List.mem_map.mp hd2 with ⟨s, hs, rfl⟩
  exact ⟨rfl, rfl, rfl⟩

/-- Witness for C6: the schedule-only collapse applied at a concrete stop
with one scheduled row and a failed realtime fetch. -/
theorem fetchDepartures_schedule_only_witness :
    (schedBaseRow
        { tripID := "t2", routeID := "r2", routeShort := "", routeLong := "Long Name",
          routeColor := "FF0000", routeType := 3, tripHeadsign := "Uptown",
          directionID := 1, departureTime := ⟨9, 0, 0⟩, stopSequence := 2 }
        [] ⟨32000, 32000⟩).isRealtime = false :=
  ((fetchDepartures_schedule_only
      [{ tripID := "t2", routeID := "r2", routeShort := "", routeLong := "Long Name",
         routeColor := "FF0000", routeType := 3, tripHeadsign := "Uptown",
         directionID := 1, departureTime := ⟨9, 0, 0⟩, stopSequence := 2 }]
      ⟨32000, 32000⟩ 5).2
    (schedBaseRow
      { tripID := "t2", routeID := "r2", routeShort := "", routeLong := "Long Name",
        routeColor := "FF0000", routeType := 3, tripHeadsign := "Uptown",
        directionID := 1, departureTime := ⟨9, 0, 0⟩, stopSequence := 2 }
      [] ⟨32000, 32000⟩)
    (by decide)).1

/-- Helper for C5: the late flag written by the realtime overlay of an
actual prediction, extracted as a formula. -/
theorem overlayRealtime_isLate (sched : SchedRow) (base : DepartureInfo) (rt : RTDep)
    (now : Clock) (hact : rt.actual = true) :
    (overlayRealtime sched base rt now).isLate =
      decide ((if Int.tdiv (rt.departureTime - now.epoch) 60 < 0 then 0
               else Int.tdiv (rt.departureTime - now.epoch) 60) >
              minutesUntil sched.departureTime now.sod + 2) := by
  unfold overlayRealtime
  simp [hact]

/-- C5 counterexample: a trip whose actual realtime prediction exceeds its
scheduled time by 121 seconds (more than the 2-minute tolerance) that the
merge does NOT flag late: with "now" 60 seconds before the schedule, the
truncated minute countdowns are 3 (realtime) and 1 (scheduled) and the
code requires 3 > 1 + 2. -/
theorem lateFlag_counterexample :
    (let now : Clock := ⟨1030000, 30000⟩
     let sched : SchedRow :=
       { tripID := "t1", routeID := "r1", routeShort := "10", routeLong := "",
         routeColor := "", routeType := 3, tripHeadsign := "H",
         directionID := 0, departureTime := ⟨8, 21, 0⟩, stopSequence := 1 }
     let rt : RTDep :=
       { actual := true, tripID := "t1", departureTime := 1030181,
         description := "", routeID := "r1", routeShortName := "10",
         directionID := 0, directionText := "SB" }
     rt.departureTime - ((now.epoch - now.sod) + (sched.departureTime.totalSeconds : Int)) > 120 ∧
     (mergedSchedRow sched [rt] now).isLate = false) := by
  decide

/-- C5 amended: the merge flags a matched row late iff the truncated
whole-minute realtime countdown exceeds the truncated whole-minute
scheduled countdown by more than 2; when both times lie on whole-minute
offsets from "now" (with the schedule not in the past), this is exactly
"the realtime time exceeds the scheduled time by more than 2 minutes", so
realtime at scheduled+5 min is flagged late and at scheduled+1 min is
not; with sub-minute offsets the claimed raw-time formulation can differ
(see the counterexample). -/
theorem lateFlag_tolerance (sched : SchedRow) (rt : RTDep) (now : Clock) (a b : Nat)
    (htrip : rt.tripID = sched.tripID) (hact : rt.actual = true)
    (hsched : (sched.departureTime.totalSeconds : Int) = now.sod + 60 * (a : Int))
    (hrt : rt.departureTime = now.epoch + 60 * (b : Int)) :
    ((mergedSchedRow sched [rt] now).isLate = true ↔
      rt.departureTime - ((now.epoch - now.sod) + (sched.departureTime.totalSeconds : Int)) > 120) := by
  have hfind : rtByTrip [rt] sched.tripID = some rt := by
    simp [rtByTrip, htrip]
  have hb0 : (0 : Int) ≤ (b : Int) := Int.natCast_nonneg b
  have ha0 : (0 : Int) ≤ (a : Int) := Int.natCast_nonneg a
  have h1 : rt.departureTime - now.epoch = 60 * (b : Int) := by omega
  have h2 : Int.tdiv (60 * (b : Int)) 60 = (b : Int) :=
    Int.mul_tdiv_cancel_left _ (by norm_num)
  have h3 : minutesUntil sched.departureTime now.sod = (a : Int) := by
    unfold minutesUntil
    have hd : (sched.departureTime.totalSeconds : Int) - now.sod = 60 * (a : Int) := by omega
    simp only [hd]
    have hnn : ¬ (60 * (a : Int) < 0) := by omega
    rw [if_neg hnn]
    exact Int.mul_tdiv_cancel_left _ (by norm_num)
  simp only [mergedSchedRow, hfind]
  rw [overlayRealtime_isLate sched _ rt now hact]
  rw [decide_eq_true_iff]
  rw [h1, h2, h3]
  have hnb : ¬ ((b : Int) < 0) := by omega
  rw [if_neg hnb]
  omega

/-- Witness for C5: the amended tolerance applied at a concrete stop —
realtime 5 whole minutes after a schedule 2 minutes out is flagged late
(the countdowns are 7 and 2). -/
theorem lateFlag_tolerance_witness :
    (mergedSchedRow
        { tripID := "t1", routeID := "r1", routeShort := "10", routeLong := "",
          routeColor := "", routeType := 3, tripHeadsign := "H",
          directionID := 0, departureTime := ⟨8, 22, 0⟩, stopSequence := 1 }
        [{ actual := true, tripID := "t1", departureTime := 1030420,
           description := "", routeID := "r1", routeShortName := "10",
           directionID := 0, directionText := "SB" }]
        ⟨1030000, 30000⟩).isLate = true :=
  (lateFlag_tolerance
      { tripID := "t1", routeID := "r1", routeShort := "10", routeLong := "",
        routeColor := "", routeType := 3, tripHeadsign := "H",
        directionID := 0, departureTime := ⟨8, 22, 0⟩, stopSequence := 1 }
      { actual := true, tripID := "t1", departureTime := 1030420,
        description := "", routeID := "r1", routeShortName := "10",
        directionID := 0, directionText := "SB" }
      ⟨1030000, 30000⟩ 2 7 rfl rfl (by decide) (by decide)).mpr (by decide)

/-! ### Update scheduler day guard — gtfs/scheduler.go -/

/-- The critical section of `CheckAndUpdate` under `s.mu`: read
`lastCheckDate`, compare with today's date string, and set it — as one
atomic check-and-set.  Returns whether this caller proceeds to the
conditional network check, and the new guard state. -/
def dayGuard (lastCheckDate today : String) : Bool × String :=
  if lastCheckDate = today then (false, lastCheckDate) else (true, today)

/-- A sequence of `CheckAndUpdate` calls: because the mutex makes each
guard section atomic, any concurrent execution is equivalent to some
sequential order of the critical sections, i.e. a fold over the call
list.  Returns how many calls proceeded to `downloader.Check` and the
final guard state. -/
def guardStep (acc : Nat × String) (t : String) : Nat × String :=
  let r := dayGuard acc.2 t
  (acc.1 + (if r.1 then 1 else 0), r.2)

/-- A sequence of `CheckAndUpdate` calls folded through the guard
sections, starting from guard state `s0`. -/
def runGuardCalls (s0 : String) (todays : List String) : Nat × String :=
  todays.foldl guardStep (0, s0)

/-- Helper for C7: once the guard records today's date, every further call
that day is a no-op. -/
theorem runGuardCalls_fold_fixed (today : String) :
    ∀ (n : Nat) (c : Nat),
      List.foldl guardStep (c, today) (List.replicate n today) = (c, today) := by
  intro n
  induction n with
  | zero => intro c; rfl
  | succ n ih =>
    intro c
    have hstep : guardStep (c, today) today = (c, today) := by
      simp [guardStep, dayGuard]
    simp only [List.replicate_succ, List.foldl_cons, hstep]
    exact ih c

/-- C7: `CheckAndUpdate` is idempotent per calendar day — for any number of
calls within the same calendar day (in any interleaving, since the guard
is a single atomic check-and-set under the scheduler mutex), at most one
caller proceeds to the conditional network check. -/
theorem checkAndUpdate_once_per_day (s0 today : String) (n : Nat) :
    (runGuardCalls s0 (List.replicate n today)).1 ≤ 1 := by
  cases n with
  | zero => simp [runGuardCalls]
  | succ n =>
    unfold runGuardCalls
    by_cases h : s0 = today
    · have hstep : guardStep (0, s0) today = (0, today) := by
        simp [guardStep, dayGuard, h]
      simp only [List.replicate_succ, List.foldl_cons, hstep]
      rw [runGuardCalls_fold_fixed today n 0]
      exact Nat.zero_le 1
    · have hstep : guardStep (0, s0) today = (1, today) := by
        simp [guardStep, dayGuard, h]
      simp only [List.replicate_succ, List.foldl_cons, hstep]
      rw [runGuardCalls_fold_fixed today n 1]

/-! ### Feed downloader — gtfs/downloader.go -/

/-- An HTTP response as far as the downloader reads it. -/
structure HResp where
  status : Nat
  lastModified : String
  etag : String
deriving DecidableEq, Repr

/-- The outcome of one HTTP exchange: a transport error (network failure
or timeout) or a response. -/
inductive FetchOutcome where
  | failed (msg : String)
  | resp (r : HResp)
deriving DecidableEq, Repr

/-- Result of the conditional check (gtfs.CheckResult). -/
structure CheckResult where
  needsUpdate : Bool
  lastModified : String
  etag : String
deriving DecidableEq, Repr

/-- Go's `Downloader.Check`: a conditional HEAD request.  A transport
error is returned (wrapped) to the caller; a 304 response short-circuits
with NeedsUpdate=false; ANY other status — 200 or not — yields
NeedsUpdate=true with the response validators.  Exactly one request is
made (the model consumes a single outcome; there is no retry loop). -/
def downloaderCheck (o : FetchOutcome) : Except String CheckResult :=
  match o with
  | .failed msg => .error ("HEAD request: " ++ msg)
  | .resp r =>
    if r.status = 304 then .ok { needsUpdate := false, lastModified := "", etag := "" }
    else .ok { needsUpdate := true, lastModified := r.lastModified, etag := r.etag }

/-- The environment of one `Downloader.Download` run: the directory
creation, temp-file creation and body-copy steps of the Go code can each
fail, and exactly one GET exchange happens. -/
structure DownloadEnv where
  mkdirOk : Bool
  outcome : FetchOutcome
  createTempOk : Bool
  copyOk : Bool
  tmpName : String
deriving DecidableEq, Repr

/-- Go's `Downloader.Download`: unconditional GET streamed to a temp file.
Errors in directory creation, transport, non-200 statuses, temp-file
creation and the body copy each abort with an error, in that order;
on success the temp path and the response validators are returned. -/
def downloaderDownload (e : DownloadEnv) : Except String (String × String × String) :=
  if ¬ e.mkdirOk then .error "create dir"
  else
    match e.outcome with
    | .failed msg => .error ("GET request: " ++ msg)
    | .resp r =>
      if r.status ≠ 200 then .error ("unexpected status: " ++ toString r.status)
      else if ¬ e.createTempOk then .error "create temp file"
      else if ¬ e.copyOk then .error "write file"
      else .ok (e.tmpName, r.lastModified, r.etag)

/-- C9 counterexample: a non-200 status (500) on the conditional check is
NOT reported as a failure — `Check` returns success with
NeedsUpdate=true and the response validators. -/
theorem downloaderCheck_non200_counterexample :
    downloaderCheck (.resp { status := 500, lastModified := "lm", etag := "et" }) =
      .ok { needsUpdate := true, lastModified := "lm", etag := "et" } := by
  rfl

/-- C9 amended: transport errors are reported verbatim as failures by both
operations and neither retries (a single exchange per call); `Download`
additionally fails on every non-200 status; `Check` short-circuits a 304
"not modified" with needsUpdate=false but treats every OTHER status —
including non-200 error statuses — as needsUpdate=true with the
response's validators. -/
theorem downloader_failure_modes :
    (∀ msg : String,
      downloaderCheck (.failed msg) = .error ("HEAD request: " ++ msg)) ∧
    (∀ (e : DownloadEnv) (msg : String), e.mkdirOk = true → e.outcome = .failed msg →
      downloaderDownload e = .error ("GET request: " ++ msg)) ∧
    (∀ (e : DownloadEnv) (r : HResp), e.mkdirOk = true → e.outcome = .resp r →
      r.status ≠ 200 →
      downloaderDownload e = .error ("unexpected status: " ++ toString r.status)) ∧
    (downloaderCheck (.resp { status := 304, lastModified := "x", etag := "y" }) =
      .ok { needsUpdate := false, lastModified := "", etag := "" }) ∧
    (∀ r : HResp, r.status ≠ 304 →
      downloaderCheck (.resp r) =
        .ok { needsUpdate := true, lastModified := r.lastModified, etag := r.etag }) := by
  refine ⟨fun msg => rfl, ?_, ?_, rfl, ?_⟩
  · intro e msg hmk hout
    unfold downloaderDownload
    simp [hmk, hout]
  · intro e r hmk hout hst
    unfold downloaderDownload
    simp [hmk, hout, hst]
  · intro r hst
    unfold downloaderCheck
    simp [hst]

/-- Witness for C9: the amended failure-mode statement applied to a
concrete 503 response on `Download`. -/
theorem downloader_failure_modes_witness :
    downloaderDownload
      { mkdirOk := true,
        outcome := .resp { status := 503, lastModified := "", etag := "" },
        createTempOk := true, copyOk := true, tmpName := "gtfs-1.zip" } =
      .error ("unexpected status: " ++ toString 503) :=
  downloader_failure_modes.2.2.1
    { mkdirOk := true,
      outcome := .resp { status := 503, lastModified := "", etag := "" },
      createTempOk := true, copyOk := true, tmpName := "gtfs-1.zip" }
    { status := 503, lastModified := "", etag := "" } rfl rfl (by decide)

/-! ### Feed store departure queries — storage package -/

/-- Generic insertion step for the SQL `ORDER BY` modelling. -/
def insertSortedBy {α : Type} (lt : α → α → Bool) (x : α) : List α → List α
  | [] => [x]
  | y :: ys => if lt x y then x :: y :: ys else y :: insertSortedBy lt x ys

/-- Generic insertion sort: one admissible realisation of an SQL
`ORDER BY` (which leaves the order of ties unspecified). -/
def sortBy {α : Type} (lt : α → α → Bool) (l : List α) : List α :=
  l.foldr (insertSortedBy lt) []

/-- Membership is preserved in both directions by the insertion step. -/
theorem mem_insertSortedBy {α : Type} (lt : α → α → Bool) (d x : α) (l : List α) :
    d ∈ insertSortedBy lt x l ↔ d = x ∨ d ∈ l := by
  induction l with
  | nil => simp [insertSortedBy]
  | cons y ys ih =>
    simp only [insertSortedBy]
    by_cases hc : lt x y
    · rw [if_pos hc]
      simp
    · rw [if_neg hc]
      simp only [List.mem_cons, ih]
      tauto

/-- Membership is preserved in both directions by the sort. -/
theorem mem_sortBy {α : Type} (lt : α → α → Bool) (d : α) (l : List α) :
    d ∈ sortBy lt l ↔ d ∈ l := by
  induction l with
  | nil => simp [sortBy]
  | cons x xs ih =>
    show d ∈ insertSortedBy lt x (sortBy lt xs) ↔ _
    rw [mem_insertSortedBy, ih]
    simp

/-- The insertion step adds one element to the length. -/
theorem length_insertSortedBy {α : Type} (lt : α → α → Bool) (x : α) (l : List α) :
    (insertSortedBy lt x l).length = l.length + 1 := by
  induction l with
  | nil => rfl
  | cons y ys ih =>
    simp only [insertSortedBy]
    by_cases hc : lt x y
    · rw [if_pos hc]
      simp
    · rw [if_neg hc]
      simp [ih]

/-- The sort preserves the length. -/
theorem length_sortBy {α : Type} (lt : α → α → Bool) (l : List α) :
    (sortBy lt l).length = l.length := by
  induction l with
  | nil => rfl
  | cons x xs ih =>
    show (insertSortedBy lt x (sortBy lt xs)).length = _
    rw [length_insertSortedBy, ih]
    rfl

/-- SQLite weekday column selected by `dayColumn(date.Weekday())`. -/
inductive Weekday where
  | monday
  | tuesday
  | wednesday
  | thursday
  | friday
  | saturday
  | sunday
deriving DecidableEq, Repr

/-- A `calendar` table row.  The seven day flags are the INTEGER columns
(`monday = 1` in SQL becomes the Bool); start/end dates are the
"YYYYMMDD" TEXT values, whose byte-wise SQL comparison on 8-digit
zero-padded strings coincides with numeric order, hence Nat here. -/
structure CalRow where
  serviceID : String
  monday : Bool
  tuesday : Bool
  wednesday : Bool
  thursday : Bool
  friday : Bool
  saturday : Bool
  sunday : Bool
  startDate : Nat
  endDate : Nat
deriving DecidableEq, Repr

/-- The weekday flag of a calendar row selected by the `%s = 1` column. -/
def dayActive (c : CalRow) : Weekday → Bool
  | .monday => c.monday
  | .tuesday => c.tuesday
  | .wednesday => c.wednesday
  | .thursday => c.thursday
  | .friday => c.friday
  | .saturday => c.saturday
  | .sunday => c.sunday

/-- A `calendar_dates` table row (service exception): type 1 adds service
on the date, type 2 removes it. -/
structure CalDateRow where
  serviceID : String
  date : Nat
  exceptionType : Nat
deriving DecidableEq, Repr

/-- A `trips` table row (columns the queries read). -/
structure TripRow where
  tripID : String
  routeID : String
  serviceID : String
  tripHeadsign : String
  directionID : Int
deriving DecidableEq, Repr

/-- A `stop_times` table row (columns the queries read). -/
structure StopTimeRow where
  tripID : String
  departureTime : GTime
  stopID : String
  stopSequence : Nat
deriving DecidableEq, Repr

/-- A `routes` table row (columns the queries read). -/
structure RouteRow where
  routeID : String
  routeShortName : String
  routeLongName : String
  routeType : Nat
  routeColor : String
deriving DecidableEq, Repr

/-- The committed feed tables visible to the departure queries. -/
structure GDb where
  stopTimes : List StopTimeRow
  trips : List TripRow
  routes : List RouteRow
  calendar : List CalRow
  calendarDates : List CalDateRow
deriving DecidableEq, Repr

/-- The calendar disjunction shared by both departure queries (the SQL
`AND ( (service_id IN calendar-subquery AND service_id NOT IN
type-2-subquery) OR service_id IN type-1-subquery )`): a service is
active on date d (falling on weekday w) iff the weekly pattern covers w
with d inside the inclusive date range and no type-2 exception exists for
(service, d), or a type-1 exception exists for (service, d). -/
def serviceActive (db : GDb) (sid : String) (d : Nat) (w : Weekday) : Bool :=
  (db.calendar.any (fun c =>
      c.serviceID = sid ∧ dayActive c w ∧ c.startDate ≤ d ∧ d ≤ c.endDate) &&
   ! db.calendarDates.any (fun cd =>
      cd.serviceID = sid ∧ cd.date = d ∧ cd.exceptionType = 2)) ||
  db.calendarDates.any (fun cd =>
      cd.serviceID = sid ∧ cd.date = d ∧ cd.exceptionType = 1)

/-- The SELECT list of `DeparturesForStop` (a storage.DepartureRow). -/
def mkDepRow (st : StopTimeRow) (t : TripRow) (r : RouteRow) : SchedRow where
  tripID := st.tripID
  routeID := t.routeID
  routeShort := r.routeShortName
  routeLong := r.routeLongName
  routeColor := r.routeColor
  routeType := r.routeType
  tripHeadsign := t.tripHeadsign
  directionID := t.directionID
  departureTime := st.departureTime
  stopSequence := st.stopSequence

/-- The FROM/JOIN/WHERE part of `DeparturesForStop`: stop_times at the
stop with departure_time >= afterTime (byte-wise TEXT comparison), joined
to trips on trip_id filtered by the calendar disjunction, joined to
routes on route_id. -/
def departureJoinRows (db : GDb) (stopID : String) (d : Nat) (w : Weekday) (after : GTime) :
    List SchedRow :=
  (db.stopTimes.filter (fun st =>
      st.stopID = stopID ∧ strLt st.departureTime.render after.render = false)).flatMap
    (fun st => (db.trips.filter (fun t =>
        t.tripID = st.tripID ∧ serviceActive db t.serviceID d w)).flatMap
      (fun t => (db.routes.filter (fun r => r.routeID = t.routeID)).map
        (fun r => mkDepRow st t r)))

/-- Row comparison of the `ORDER BY st.departure_time` clause. -/
def depTimeLt (a b : SchedRow) : Bool :=
  strLt a.departureTime.render b.departureTime.render

/-- Go's `DeparturesForStop` (storage): ordered by departure time,
truncated to the SQL LIMIT. -/
def DeparturesForStop (db : GDb) (stopID : String) (d : Nat) (w : Weekday) (after : GTime)
    (limit : Nat) : List SchedRow :=
  (sortBy depTimeLt (departureJoinRows db stopID d w after)).take limit

/-- The FROM/JOIN/WHERE part of `AllDeparturesForStopRoute`: stop_times at
the stop joined to trips on trip_id filtered by route, direction and the
calendar disjunction; the SELECT list is just the departure time. -/
def allDepartureJoinTimes (db : GDb) (stopID routeID : String) (directionID : Int)
    (d : Nat) (w : Weekday) : List GTime :=
  (db.stopTimes.filter (fun st => st.stopID = stopID)).flatMap
    (fun st => (db.trips.filter (fun t =>
        t.tripID = st.tripID ∧ t.routeID = routeID ∧ t.directionID = directionID ∧
        serviceActive db t.serviceID d w)).map
      (fun _ => st.departureTime))

/-- Time comparison of the `ORDER BY st.departure_time` clause. -/
def gtimeLt (a b : GTime) : Bool :=
  strLt a.render b.render

/-- Go's `AllDeparturesForStopRoute` (storage): every departure time for
the stop/route/direction on the date, ordered, no limit. -/
def AllDeparturesForStopRoute (db : GDb) (stopID routeID : String) (directionID : Int)
    (d : Nat) (w : Weekday) : List GTime :=
  sortBy gtimeLt (allDepartureJoinTimes db stopID routeID directionID d w)

/-- Characterisation of the join underlying `DeparturesForStop`. -/
theorem mem_departureJoinRows (db : GDb) (stopID : String) (d : Nat) (w : Weekday)
    (after : GTime) (row : SchedRow) :
    row ∈ departureJoinRows db stopID d w after ↔
      ∃ st ∈ db.stopTimes, ∃ t ∈ db.trips, ∃ r ∈ db.routes,
        st.stopID = stopID ∧ strLt st.departureTime.render after.render = false ∧
        t.tripID = st.tripID ∧ serviceActive db t.serviceID d w = true ∧
        r.routeID = t.routeID ∧ row = mkDepRow st t r := by
  simp only [departureJoinRows, List.mem_flatMap, List.mem_filter, List.mem_map,
    decide_eq_true_eq]
  constructor
  · rintro ⟨st, ⟨hst, hstopID, htime⟩, t, ⟨ht, htrip, hact⟩, r, ⟨hr, hroute⟩, hrow⟩
    exact ⟨st, hst, t, ht, r, hr, hstopID, htime, htrip, hact, hroute, hrow.symm⟩
  · rintro ⟨st, hst, t, ht, r, hr, hstopID, htime, htrip, hact, hroute, hrow⟩
    exact ⟨st, ⟨hst, hstopID, htime⟩, t, ⟨ht, htrip, hact⟩, r, ⟨hr, hroute⟩, hrow.symm⟩

/-- Characterisation of the join underlying `AllDeparturesForStopRoute`. -/
theorem mem_allDepartureJoinTimes (db : GDb) (stopID routeID : String) (directionID : Int)
    (d : Nat) (w : Weekday) (time : GTime) :
    time ∈ allDepartureJoinTimes db stopID routeID directionID d w ↔
      ∃ st ∈ db.stopTimes, ∃ t ∈ db.trips,
        st.stopID = stopID ∧ t.tripID = st.tripID ∧ t.routeID = routeID ∧
        t.directionID = directionID ∧ serviceActive db t.serviceID d w = true ∧
        time = st.departureTime := by
  simp only [allDepartureJoinTimes, List.mem_flatMap, List.mem_filter, List.mem_map,
    decide_eq_true_eq]
  constructor
  · rintro ⟨st, ⟨hst, hstopID⟩, t, ⟨ht, htrip, hroute, hdir, hact⟩, htime⟩
    exact ⟨st, hst, t, ht, hstopID, htrip, hroute, hdir, hact, htime.symm⟩
  · rintro ⟨st, hst, t, ht, hstopID, htrip, hroute, hdir, hact, htime⟩
    exact ⟨st, ⟨hst, hstopID⟩, t, ⟨ht, htrip, hroute, hdir, hact⟩, htime.symm⟩

/-- C2: a trip's departure row at a stop (with its time at or past the
floor) is returned by `DeparturesForStop` iff the trip's service is
active on the date, where active is the calendar disjunction of §3:
(weekday flag set and date within the inclusive range, and no type-2
exception) or (a type-1 exception exists); under the same activity
condition the departure time is returned by `AllDeparturesForStopRoute`,
and every time that query returns is produced by some stop_time whose
trip's service is active.  Trip ids are unique (`trips.trip_id` is the
PRIMARY KEY) and the SQL LIMIT is large enough not to cut the row. -/
theorem departures_iff_serviceActive (db : GDb) (stopID : String) (d : Nat) (w : Weekday)
    (after : GTime) (limit : Nat) (st : StopTimeRow) (t : TripRow) (r : RouteRow)
    (hnodup : (db.trips.map TripRow.tripID).Nodup)
    (hst : st ∈ db.stopTimes) (ht : t ∈ db.trips) (hr : r ∈ db.routes)
    (htrip : t.tripID = st.tripID) (hroute : r.routeID = t.routeID)
    (hstop : st.stopID = stopID)
    (htime : strLt st.departureTime.render after.render = false)
    (hlimit : (departureJoinRows db stopID d w after).length ≤ limit) :
    (mkDepRow st t r ∈ DeparturesForStop db stopID d w after limit ↔
      serviceActive db t.serviceID d w = true) ∧
    (serviceActive db t.serviceID d w = true →
      st.departureTime ∈ AllDeparturesForStopRoute db stopID t.routeID t.directionID d w) ∧
    (∀ time ∈ AllDeparturesForStopRoute db stopID t.routeID t.directionID d w,
      ∃ st2 ∈ db.stopTimes, ∃ t2 ∈ db.trips,
        st2.stopID = stopID ∧ t2.tripID = st2.tripID ∧ t2.routeID = t.routeID ∧
        t2.directionID = t.directionID ∧ serviceActive db t2.serviceID d w = true ∧
        time = st2.departureTime) := by
  have htake : DeparturesForStop db stopID d w after limit =
      sortBy depTimeLt (departureJoinRows db stopID d w after) := by
    unfold DeparturesForStop
    apply List.take_of_length_le
    rw [length_sortBy]
    exact hlimit
  refine ⟨?_, ?_, ?_⟩
  · rw [htake, mem_sortBy, mem_departureJoinRows]
    constructor
    · rintro ⟨st2, hst2, t2, ht2, r2, hr2, hstopID2, htime2, htrip2, hact2, hroute2, hrow⟩
      have hfield : st2.tripID = st.tripID := by
        have := congrArg SchedRow.tripID hrow
        simpa [mkDepRow] using this.symm
      have ht2id : t2.tripID = t.tripID := by
        rw [htrip2, hfield, htrip]
      have ht2eq : t2 = t := List.inj_on_of_nodup_map hnodup ht2 ht ht2id
      rw [ht2eq] at hact2
      exact hact2
    · intro hact
      exact ⟨st, hst, t, ht, r, hr, hstop, htime, htrip, hact, hroute, rfl⟩
  · intro hact
    rw [AllDeparturesForStopRoute, mem_sortBy, mem_allDepartureJoinTimes]
    exact ⟨st, hst, t, ht, hstop, htrip, rfl, rfl, hact, rfl⟩
  · intro time htime2
    rw [AllDeparturesForStopRoute, mem_sortBy, mem_allDepartureJoinTimes] at htime2
    exact htime2

/-- Witness for C2: the query equivalence applied to a one-trip database —
a Monday service with a covering calendar entry and no exceptions is
returned. -/
theorem departures_iff_serviceActive_witness :
    mkDepRow
        { tripID := "t1", departureTime := ⟨8, 30, 0⟩, stopID := "s1", stopSequence := 1 }
        { tripID := "t1", routeID := "r1", serviceID := "svc1", tripHeadsign := "H",
          directionID := 0 }
        { routeID := "r1", routeShortName := "10", routeLongName := "Ten",
          routeType := 3, routeColor := "" } ∈
      DeparturesForStop
        { stopTimes := [{ tripID := "t1", departureTime := ⟨8, 30, 0⟩, stopID := "s1",
                          stopSequence := 1 }],
          trips := [{ tripID := "t1", routeID := "r1", serviceID := "svc1",
                      tripHeadsign := "H", directionID := 0 }],
          routes := [{ routeID := "r1", routeShortName := "10", routeLongName := "Ten",
                       routeType := 3, routeColor := "" }],
          calendar := [{ serviceID := "svc1", monday := true, tuesday := false,
                         wednesday := false, thursday := false, friday := false,
                         saturday := false, sunday := false,
                         startDate := 20250101, endDate := 20251231 }],
          calendarDates := [] }
        "s1" 20250602 .monday ⟨8, 0, 0⟩ 10 :=
  ((departures_iff_serviceActive
      { stopTimes := [{ tripID := "t1", departureTime := ⟨8, 30, 0⟩, stopID := "s1",
                        stopSequence := 1 }],
        trips := [{ tripID := "t1", routeID := "r1", serviceID := "svc1",
                    tripHeadsign := "H", directionID := 0 }],
        routes := [{ routeID := "r1", routeShortName := "10", routeLongName := "Ten",
                     routeType := 3, routeColor := "" }],
        calendar := [{ serviceID := "svc1", monday := true, tuesday := false,
                       wednesday := false, thursday := false, friday := false,
                       saturday := false, sunday := false,
                       startDate := 20250101, endDate := 20251231 }],
        calendarDates := [] }
      "s1" 20250602 .monday ⟨8, 0, 0⟩ 10
      { tripID := "t1", departureTime := ⟨8, 30, 0⟩, stopID := "s1", stopSequence := 1 }
      { tripID := "t1", routeID := "r1", serviceID := "svc1", tripHeadsign := "H",
        directionID := 0 }
      { routeID := "r1", routeShortName := "10", routeLongName := "Ten",
        routeType := 3, routeColor := "" }
      (by decide) (by decide) (by decide) (by decide) rfl rfl rfl (by decide)
      (by decide)).1).mpr (by decide)

/-! ### Nearby search radius escalation — handler/nearby.go -/

/-- A stop row of the bounding-box query, as far as the stop view's
pagination is concerned. -/
structure NStop where
  stopID : String
  stopName : String
deriving DecidableEq, Repr

/-- The progressive search half-sides in meters (`radiusTiers`). -/
def radiusTiers : List Nat := [450, 900, 1800, 3600, 7200, 14400]

/-- Go's `nextRadius`: the first tier strictly above the given radius,
none when already at or above the maximum. -/
def nextRadius (current : Nat) : Option Nat :=
  radiusTiers.find? (fun tier => current < tier)

/-- Go's `findNearbyStopsView` reduced to its pagination skeleton: `world`
maps a radius tier to the rows `h.db.NearbyStops` returns for that
tier's bounding box and fan-out limit (already distance-ordered by the
query).  Returns the page slice and `hasMore`
(offset+limit < total). -/
def findNearbyStopsView (world : Nat → List NStop) (offset limit radius : Nat) :
    List NStop × Bool :=
  let allStops := world radius
  if allStops.length ≤ offset then ([], false)
  else ((allStops.drop offset).take limit, offset + limit < allStops.length)

/-- The loop state of the stop-view branch of `Nearby`: the current page,
its hasMore flag, the cumulative `newOffset`, and the current radius. -/
structure NearbyState where
  items : List NStop
  hasMore : Bool
  newOffset : Nat
  radius : Nat
deriving DecidableEq, Repr

/-- The auto-advance loop of `Nearby`
(`for !hasMore && len(stopViews) == 0 && newOffset > 0`): escalate to the
next radius tier and re-query at the cumulative offset.  The fuel is the
number of tiers: each escalation moves to a strictly larger tier, so the
Go loop runs at most `radiusTiers.length` iterations before
`nextRadius` is exhausted. -/
def autoAdvance (world : Nat → List NStop) (limit : Nat) :
    Nat → NearbyState → NearbyState
  | 0, st => st
  | fuel + 1, st =>
    if st.hasMore = false ∧ st.items = [] ∧ 0 < st.newOffset then
      match nextRadius st.radius with
      | none => st
      | some r2 =>
        let q := findNearbyStopsView world st.newOffset limit r2
        autoAdvance world limit fuel ⟨q.1, q.2, st.newOffset + q.1.length, r2⟩
    else st

/-- What the stop-view branch renders: the page, the `HasStops` flag, and
the "show more" link modelled by the (offset, radius) pair it carries. -/
structure NearbyOutcome where
  stopViews : List NStop
  hasStops : Bool
  hasMore : Bool
  moreOffset : Nat
  moreRadius : Nat
deriving DecidableEq, Repr

/-- The tail of the stop-view branch of `Nearby` after the loop: publish
the page, set `HasStops`, and build the more-URL either from the current
radius (when hasMore) or from the next tier (when pagination has
produced items and a next tier exists). -/
def nearbyFinish (offset : Nat) (stf : NearbyState) : NearbyOutcome :=
  let base : NearbyOutcome :=
    { stopViews := stf.items
      hasStops := decide (stf.items ≠ [] ∨ 0 < offset)
      hasMore := false
      moreOffset := 0
      moreRadius := 0 }
  if stf.hasMore = true then
    { base with hasMore := true, moreOffset := stf.newOffset, moreRadius := stf.radius }
  else if 0 < stf.newOffset then
    match nextRadius stf.radius with
    | some r2 => { base with hasMore := true, moreOffset := stf.newOffset, moreRadius := r2 }
    | none => base
  else base

/-- The stop-view branch of the `Nearby` handler: default the radius to the
first tier when unset, query, then run the auto-advance loop and publish
the outcome.  (The routes-view branch runs the identical loop over
`findNearbyRoutes`.) -/
def nearbyStopsFlow (world : Nat → List NStop) (offset radius0 : Nat) : NearbyOutcome :=
  let radius := if radius0 = 0 then radiusTiers.headD 450 else radius0
  let limit := 5
  let q := findNearbyStopsView world offset limit radius
  nearbyFinish offset
    (autoAdvance world limit radiusTiers.length ⟨q.1, q.2, offset + q.1.length, radius⟩)

/-- The published page is always the loop's final item list, whatever the
more-URL branch. -/
theorem nearbyFinish_stopViews (offset : Nat) (stf : NearbyState) :
    (nearbyFinish offset stf).stopViews = stf.items := by
  unfold nearbyFinish
  by_cases h1 : stf.hasMore = true
  · simp [h1]
  · simp only [h1, if_false]
    by_cases h2 : 0 < stf.newOffset
    · simp only [h2, if_true]
      cases nextRadius stf.radius <;> simp
    · simp [h2]

/-- The loop exits immediately when its condition is false. -/
theorem autoAdvance_exit (world : Nat → List NStop) (limit fuel : Nat) (st : NearbyState)
    (h : ¬ (st.hasMore = false ∧ st.items = [] ∧ 0 < st.newOffset)) :
    autoAdvance world limit fuel st = st := by
  cases fuel with
  | zero => rfl
  | succ fuel => simp [autoAdvance, h]

/-- One escalation step of the loop. -/
theorem autoAdvance_step (world : Nat → List NStop) (limit fuel : Nat) (st : NearbyState)
    (r2 : Nat) (h : st.hasMore = false ∧ st.items = [] ∧ 0 < st.newOffset)
    (hn : nextRadius st.radius = some r2) :
    autoAdvance world limit (fuel + 1) st =
      autoAdvance world limit fuel
        ⟨(findNearbyStopsView world st.newOffset limit r2).1,
         (findNearbyStopsView world st.newOffset limit r2).2,
         st.newOffset + (findNearbyStopsView world st.newOffset limit r2).1.length, r2⟩ := by
  simp [autoAdvance, h, hn]

/-- C1 counterexample: a point whose first radius tier (450 m) holds no
stops but whose second tier (900 m) holds three.  A fresh query
(offset 0) returns an empty page — the loop condition `newOffset > 0`
blocks escalation when pagination has not yet produced any items — and
offers no further link, instead of returning the second tier's
results as the claim states. -/
theorem nearby_escalation_counterexample :
    (nearbyStopsFlow
        (fun r => if r = 900 then
          [⟨"A", "Stop A"⟩, ⟨"B", "Stop B"⟩, ⟨"C", "Stop C"⟩] else []) 0 0).stopViews = [] ∧
    (nearbyStopsFlow
        (fun r => if r = 900 then
          [⟨"A", "Stop A"⟩, ⟨"B", "Stop B"⟩, ⟨"C", "Stop C"⟩] else []) 0 0).hasMore = false ∧
    findNearbyStopsView
        (fun r => if r = 900 then
          [⟨"A", "Stop A"⟩, ⟨"B", "Stop B"⟩, ⟨"C", "Stop C"⟩] else []) 0 5 900 =
      ([⟨"A", "Stop A"⟩, ⟨"B", "Stop B"⟩, ⟨"C", "Stop C"⟩], false) := by
  decide

/-- C1 amended: the auto-advance loop escalates only when pagination has
ALREADY produced items (`newOffset > 0`).  (a) A fresh query (offset 0)
whose tier holds no stops returns an empty page without escalating, even
if later tiers hold stops; (b) a continuation query (offset > 0) whose
tier holds no further stops escalates to the next tier inside the same
call and returns that tier's page at the cumulative offset. -/
theorem nearby_escalation_condition (world : Nat → List NStop) (offset radius : Nat) :
    (radius ≠ 0 → world radius = [] →
      (nearbyStopsFlow world 0 radius).stopViews = []) ∧
    (∀ (r2 : Nat) (items : List NStop) (hm2 : Bool),
      0 < offset → radius ≠ 0 → world radius = [] →
      nextRadius radius = some r2 →
      findNearbyStopsView world offset 5 r2 = (items, hm2) → items ≠ [] →
      (nearbyStopsFlow world offset radius).stopViews = items) := by
  have hlen : radiusTiers.length = 5 + 1 := rfl
  constructor
  · intro hr hw
    have hq : findNearbyStopsView world 0 5 radius = ([], false) := by
      simp [findNearbyStopsView, hw]
    unfold nearbyStopsFlow
    simp only [if_neg hr, hq]
    rw [nearbyFinish_stopViews]
    rw [autoAdvance_exit]
    simp
  · intro r2 items hm2 hoff hr hw hnext hq hne
    have hq1 : findNearbyStopsView world offset 5 radius = ([], false) := by
      simp [findNearbyStopsView, hw, Nat.zero_le]
    unfold nearbyStopsFlow
    simp only [if_neg hr, hq1, List.length_nil, Nat.add_zero]
    rw [nearbyFinish_stopViews]
    rw [hlen, autoAdvance_step world 5 5 ⟨[], false, offset, radius⟩ r2
      ⟨rfl, rfl, hoff⟩ hnext]
    rw [autoAdvance_exit]
    · simp [hq]
    · simp only [hq]
      intro hcon
      exact absurd hcon.2.1 hne

/-- Witness for C1: a continuation call (offset 3) on an exhausted 450 m
tier escalates to the 900 m tier and returns its page at offset 3. -/
theorem nearby_escalation_condition_witness :
    (nearbyStopsFlow
        (fun r => if r = 900 then
          [⟨"A", "A"⟩, ⟨"B", "B"⟩, ⟨"C", "C"⟩, ⟨"D", "D"⟩] else []) 3 450).stopViews =
      [⟨"D", "D"⟩] :=
  (nearby_escalation_condition
      (fun r => if r = 900 then
        [⟨"A", "A"⟩, ⟨"B", "B"⟩, ⟨"C", "C"⟩, ⟨"D", "D"⟩] else []) 3 450).2
    900 [⟨"D", "D"⟩] false (by decide) (by decide) (by decide) (by decide)
    (by decide) (by decide)

/-! ### Feed importer atomicity — gtfs/importer.go -/

/-- Parsed feed record types (gtfs/types.go): all CSV fields are strings. -/
structure Agency where
  agencyID : String
  agencyName : String
  agencyURL : String
  agencyTimezone : String
deriving DecidableEq, Repr

/-- A routes.txt record. -/
structure Route where
  routeID : String
  agencyID : String
  routeShortName : String
  routeLongName : String
  routeType : String
  routeColor : String
  routeTextColor : String
  routeSortOrder : String
deriving DecidableEq, Repr

/-- A stops.txt record. -/
structure Stop where
  stopID : String
  stopName : String
  stopDesc : String
  stopLat : String
  stopLon : String
  locationType : String
deriving DecidableEq, Repr

/-- A trips.txt record. -/
structure Trip where
  tripID : String
  routeID : String
  serviceID : String
  tripHeadsign : String
  directionID : String
  blockID : String
  shapeID : String
deriving DecidableEq, Repr

/-- A stop_times.txt record (streamed, never materialized in the Feed). -/
structure StopTime where
  tripID : String
  arrivalTime : String
  departureTime : String
  stopID : String
  stopSequence : String
  pickupType : String
  dropOffType : String
  timepoint : String
deriving DecidableEq, Repr

/-- A calendar.txt record. -/
structure CalendarEntry where
  serviceID : String
  monday : String
  tuesday : String
  wednesday : String
  thursday : String
  friday : String
  saturday : String
  sunday : String
  startDate : String
  endDate : String
deriving DecidableEq, Repr

/-- A calendar_dates.txt record. -/
structure CalendarDate where
  serviceID : String
  date : String
  exceptionType : String
deriving DecidableEq, Repr

/-- A shapes.txt record (streamed). -/
structure ShapePoint where
  shapeID : String
  shapePtLat : String
  shapePtLon : String
  shapePtSequence : String
  shapeDistTraveled : String
deriving DecidableEq, Repr

/-- The parsed feed handed to the importer (gtfs.Feed): small tables
materialized, plus the validators from the HTTP response. -/
structure Feed where
  agencies : List Agency
  routes : List Route
  stops : List Stop
  trips : List Trip
  calendar : List CalendarEntry
  calendarDates : List CalendarDate
  lastModified : String
  etag : String
deriving DecidableEq, Repr

/-- The large tables streamed straight from the zip during import:
stop_times.txt is required (its absence is a hard error inside the
transaction), shapes.txt is optional (absence skips the step). -/
structure ZipData where
  stopTimes : Option (List StopTime)
  shapes : Option (List ShapePoint)
deriving DecidableEq, Repr

/-- The feed tables of the SQLite database, including the R-Tree spatial
index (degenerate point boxes keyed by stop rowid, here the stop's list
index) and the metadata key/value table. -/
structure Tables where
  agency : List Agency
  routes : List Route
  stops : List Stop
  calendar : List CalendarEntry
  calendarDates : List CalendarDate
  trips : List Trip
  stopTimes : List StopTime
  shapes : List ShapePoint
  rtree : List (Nat × String × String)
  metadata : List (String × String)
deriving DecidableEq, Repr

/-- `DELETE FROM` every feed table (`clearTables`). -/
def clearTables (_ : Tables) : Tables where
  agency := []
  routes := []
  stops := []
  calendar := []
  calendarDates := []
  trips := []
  stopTimes := []
  shapes := []
  rtree := []
  metadata := []

/-- `INSERT OR REPLACE` into feed_metadata. -/
def metaSet (kvs : List (String × String)) (k v : String) : List (String × String) :=
  (kvs.filter (fun kv => kv.1 ≠ k)) ++ [(k, v)]

/-- The empty-string shape_dist_traveled fixup of `streamShapes`. -/
def shapeFix (sp : ShapePoint) : ShapePoint :=
  if sp.shapeDistTraveled = "" then { sp with shapeDistTraveled := "0" } else sp

/-- `RebuildRTree`: clear the index and repopulate it with one degenerate
(point) box per stop row, keyed by the stop's rowid. -/
def rebuildRTree (tb : Tables) : Tables :=
  { tb with rtree := tb.stops.enum.map (fun p => (p.1, p.2.stopLat, p.2.stopLon)) }

/-- The metadata stamping tail of `Import`: always write imported_at, and
write last_modified / etag only when nonempty. -/
def stampMetadata (feed : Feed) (importedAt : String) (tb : Tables) : Tables :=
  let m1 := metaSet tb.metadata "imported_at" importedAt
  let m2 := if feed.lastModified ≠ "" then metaSet m1 "last_modified" feed.lastModified else m1
  let m3 := if feed.etag ≠ "" then metaSet m2 "etag" feed.etag else m2
  { tb with metadata := m3 }

/-- The ordered step list of `Import`, each step acting on the
transaction's working state: clear, the six small-table inserts, the two
large-table streams, the spatial-index rebuild, and the metadata stamp.
Streaming stop_times fails when the file is absent from the zip. -/
def importSteps (feed : Feed) (zip : ZipData) (importedAt : String) :
    List (Tables → Except String Tables) :=
  [fun tb => .ok (clearTables tb),
   fun tb => .ok { tb with agency := tb.agency ++ feed.agencies },
   fun tb => .ok { tb with routes := tb.routes ++ feed.routes },
   fun tb => .ok { tb with stops := tb.stops ++ feed.stops },
   fun tb => .ok { tb with calendar := tb.calendar ++ feed.calendar },
   fun tb => .ok { tb with calendarDates := tb.calendarDates ++ feed.calendarDates },
   fun tb => .ok { tb with trips := tb.trips ++ feed.trips },
   fun tb => match zip.stopTimes with
     | none => .error "stop_times.txt not found in zip"
     | some rows => .ok { tb with stopTimes := tb.stopTimes ++ rows },
   fun tb => match zip.shapes with
     | none => .ok tb
     | some rows => .ok { tb with shapes := tb.shapes ++ rows.map shapeFix },
   fun tb => .ok (rebuildRTree tb),
   fun tb => .ok (stampMetadata feed importedAt tb)]

/-- Run the import steps on the transaction's working copy.  `failAt`
injects an execution failure (disk error, constraint violation,
cancelled context, ...) at the given step index; a failing step aborts
the run. -/
def runStepsAux : List (Tables → Except String Tables) → Option Nat → Nat → Tables →
    Except String Tables
  | [], _, _, tb => .ok tb
  | step :: rest, failAt, i, tb =>
    if failAt = some i then .error "injected failure"
    else
      match step tb with
      | .error e => .error e
      | .ok tb2 => runStepsAux rest failAt (i + 1) tb2

/-- The outcome of one `Import` call: what the function returns and the
committed database afterwards. -/
structure ImportResult where
  result : Except String Tables
  committed : Tables
deriving Repr

/-- Go's `Importer.Import`: begin a transaction (the working copy starts
from the committed state), run every step against the working copy, and
either commit (the working copy becomes the committed state) or let the
deferred `tx.Rollback()` discard the working copy, leaving the committed
state untouched.  Readers always see the committed component.  `commitOk`
models `tx.Commit()` itself failing. -/
def importGo (committed : Tables) (feed : Feed) (zip : ZipData) (importedAt : String)
    (failAt : Option Nat) (commitOk : Bool) : ImportResult :=
  match runStepsAux (importSteps feed zip importedAt) failAt 0 committed with
  | .error e => ⟨.error e, committed⟩
  | .ok working =>
    if commitOk then ⟨.ok working, working⟩ else ⟨.error "commit", committed⟩

/-- The dataset a successful import publishes, stated directly from the
feed and zip contents: every table replaced wholesale, the spatial index
rebuilt from the new stop rows, the metadata stamped. -/
def importedTables (feed : Feed) (stRows : List StopTime) (shapes? : Option (List ShapePoint))
    (importedAt : String) : Tables :=
  stampMetadata feed importedAt (rebuildRTree
    { agency := feed.agencies
      routes := feed.routes
      stops := feed.stops
      calendar := feed.calendar
      calendarDates := feed.calendarDates
      trips := feed.trips
      stopTimes := stRows
      shapes := (shapes?.getD []).map shapeFix
      rtree := []
      metadata := [] })

/-- The failure-free sequential composition of import steps. -/
def foldSteps : List (Tables → Except String Tables) → Tables → Except String Tables
  | [], tb => .ok tb
  | step :: rest, tb =>
    match step tb with
    | .error e => .error e
    | .ok tb2 => foldSteps rest tb2

/-- Helper for C3: a successful run with failure injection coincides with
the failure-free composition. -/
theorem runStepsAux_ok_foldSteps :
    ∀ (steps : List (Tables → Except String Tables)) (failAt : Option Nat) (i : Nat)
      (tb0 working : Tables),
      runStepsAux steps failAt i tb0 = .ok working → foldSteps steps tb0 = .ok working := by
  intro steps
  induction steps with
  | nil => intro failAt i tb0 working h; exact h
  | cons step rest ih =>
    intro failAt i tb0 working h
    unfold runStepsAux at h
    by_cases hf : failAt = some i
    · rw [if_pos hf] at h
      exact Except.noConfusion h
    · rw [if_neg hf] at h
      unfold foldSteps
      cases hs : step tb0 with
      | error e =>
        rw [hs] at h
        exact Except.noConfusion h
      | ok tb2 =>
        rw [hs] at h
        exact ih failAt (i + 1) tb2 working h

/-- Helper for C3: the failure-free composition of the import step list
either reports the missing stop_times.txt or yields exactly the
wholesale-replaced dataset. -/
theorem foldSteps_importSteps (feed : Feed) (zip : ZipData) (importedAt : String)
    (tb0 : Tables) :
    foldSteps (importSteps feed zip importedAt) tb0 =
      match zip.stopTimes with
      | none => .error "stop_times.txt not found in zip"
      | some rows => .ok (importedTables feed rows zip.shapes importedAt) := by
  obtain ⟨zst, zsh⟩ := zip
  cases zst with
  | none => rfl
  | some rows =>
    cases zsh with
    | none => rfl
    | some srows => rfl

/-- C3: `Import` is one atomic unit.  Whatever fails — an injected
execution failure at any step, a missing stop_times.txt, or the commit
itself — the call returns an error and the committed dataset is exactly
the previous one (readers only ever see the committed component of the
transaction, so no reader observes a half-imported feed); and when the
call returns success, the committed dataset is exactly the
wholesale-replaced feed with the spatial index rebuilt from the new stop
rows and the metadata stamped. -/
theorem import_atomic (committed : Tables) (feed : Feed) (zip : ZipData)
    (importedAt : String) (failAt : Option Nat) (commitOk : Bool) :
    (∀ e, (importGo committed feed zip importedAt failAt commitOk).result = .error e →
      (importGo committed feed zip importedAt failAt commitOk).committed = committed) ∧
    (∀ tb, (importGo committed feed zip importedAt failAt commitOk).result = .ok tb →
      (importGo committed feed zip importedAt failAt commitOk).committed = tb ∧
      tb = importedTables feed (zip.stopTimes.getD []) zip.shapes importedAt) := by
  unfold importGo
  cases hrun : runStepsAux (importSteps feed zip importedAt) failAt 0 committed with
  | error e =>
    exact ⟨fun e2 _ => rfl, fun tb htb => Except.noConfusion htb⟩
  | ok working =>
    have hfold := runStepsAux_ok_foldSteps (importSteps feed zip importedAt)
      failAt 0 committed working hrun
    rw [foldSteps_importSteps] at hfold
    by_cases hc : commitOk
    · simp only [hc, if_true]
      refine ⟨fun e2 h2 => Except.noConfusion h2, fun tb htb => ?_⟩
      injection htb with h2
      subst h2
      refine ⟨rfl, ?_⟩
      cases hst : zip.stopTimes with
      | none =>
        rw [hst] at hfold
        exact Except.noConfusion hfold
      | some rows =>
        rw [hst] at hfold
        injection hfold with h3
        rw [← h3]
        rfl
    · simp only [hc, if_false]
      exact ⟨fun e2 _ => rfl, fun tb htb => Except.noConfusion htb⟩

/-- A previously committed dataset with one route row, used to exercise
the import rollback. -/
def committedOneRoute : Tables where
  agency := []
  routes := [{ routeID := "old", agencyID := "", routeShortName := "1",
               routeLongName := "", routeType := "3", routeColor := "",
               routeTextColor := "", routeSortOrder := "" }]
  stops := []
  calendar := []
  calendarDates := []
  trips := []
  stopTimes := []
  shapes := []
  rtree := []
  metadata := []

/-- A minimal parsed feed for the rollback witness. -/
def feedSmall : Feed where
  agencies := []
  routes := []
  stops := [{ stopID := "s1", stopName := "First St", stopDesc := "",
              stopLat := "44.97", stopLon := "-93.27", locationType := "0" }]
  trips := []
  calendar := []
  calendarDates := []
  lastModified := "lm"
  etag := "et"

/-- A minimal zip payload for the rollback witness. -/
def zipSmall : ZipData where
  stopTimes := some []
  shapes := none

/-- Witness for C3: a failure injected at step 3 (the stops insert) of a
concrete import leaves the previously committed one-route dataset
untouched. -/
theorem import_atomic_witness :
    (importGo committedOneRoute feedSmall zipSmall "2025-06-02T03:00:00Z"
        (some 3) true).committed = committedOneRoute :=
  (import_atomic committedOneRoute feedSmall zipSmall "2025-06-02T03:00:00Z"
      (some 3) true).1 "injected failure" rfl
